import Mathlib

/-!
Shallow embedding of the endless-pool controller core (src/protocol/constants.py,
src/protocol/decoder.py, src/server.py).

Modelling conventions:
* Python `bytes` are `List ℕ` (each element a byte value).
* Python `float` arithmetic is modelled exactly over `ℚ`; Python's `round`
  (banker's rounding, half to even) is `pyRound`, `int()` truncation is `pyInt`.
* Effects are made explicit: the random transaction id, the wall clock and the
  fresh workout identifier are parameters of the functions that consume them.
-/

/-- Python `int(x)`: truncation toward zero. -/
def pyInt (q : ℚ) : ℤ :=
  if 0 ≤ q then ⌊q⌋ else -⌊-q⌋

/-- Python `round(x)`: round half to even (banker's rounding), over ℚ. -/
def pyRound (q : ℚ) : ℤ :=
  let f : ℤ := ⌊q⌋
  let r : ℚ := q - f
  if r < 1/2 then f
  else if 1/2 < r then f + 1
  else if f % 2 = 0 then f else f + 1

/-- Python `round(x, 1)`. -/
def round1 (q : ℚ) : ℚ := (pyRound (q * 10) : ℚ) / 10

/-- Python `round(x, 2)`. -/
def round2 (q : ℚ) : ℚ := (pyRound (q * 100) : ℚ) / 100

/-- Little-endian encoding of a 16-bit value (`struct.pack "<H"`). -/
def le16 (v : ℕ) : List ℕ := [v % 256, v / 256 % 256]

/-- Little-endian encoding of a 32-bit value (`struct.pack "<I"`). -/
def le32 (v : ℕ) : List ℕ :=
  [v % 256, v / 256 % 256, v / 2 ^ 16 % 256, v / 2 ^ 24 % 256]

/-- Little-endian 16-bit read at an offset (`struct.unpack_from "<H"`). -/
def readLE16 (data : List ℕ) (off : ℕ) : ℕ :=
  data.getD off 0 + 256 * data.getD (off + 1) 0

/-- Little-endian 32-bit read at an offset (`struct.unpack_from "<I"`). -/
def readLE32 (data : List ℕ) (off : ℕ) : ℕ :=
  data.getD off 0 + 256 * data.getD (off + 1) 0
    + 2 ^ 16 * data.getD (off + 2) 0 + 2 ^ 24 * data.getD (off + 3) 0

/-- One bit step of the reflected CRC-32 (polynomial 0xEDB88320, as zlib). -/
def crc32Round (c : ℕ) : ℕ :=
  if c % 2 = 1 then (c / 2) ^^^ 0xEDB88320 else c / 2

/-- Absorb one byte into the CRC-32 accumulator. -/
def crc32Byte (crc b : ℕ) : ℕ := crc32Round^[8] (crc ^^^ b)

/-- `binascii.crc32(data) & 0xFFFFFFFF`: standard zlib/PNG CRC-32. -/
def crc32 (data : List ℕ) : ℕ :=
  (data.foldl crc32Byte 0xFFFFFFFF) ^^^ 0xFFFFFFFF

/-- Exact value of an IEEE-754 binary32 bit pattern, read little-endian by
`struct.unpack "<f"`.  Finite values are represented exactly in ℚ; the
non-finite patterns (exponent 255) are outside the rational model and map
to 0. -/
def f32ToRat (bits : ℕ) : ℚ :=
  let sign : ℕ := bits / 2 ^ 31 % 2
  let ex : ℕ := bits / 2 ^ 23 % 256
  let frac : ℕ := bits % 2 ^ 23
  let mag : ℚ :=
    if ex = 0 then (frac : ℚ) / 2 ^ 149
    else if ex = 255 then 0
    else ((2 ^ 23 + frac : ℕ) : ℚ) * 2 ^ ex / 2 ^ 150
  if sign = 1 then -mag else mag

/-- `bytes.split(b"\x00")[0].decode("ascii", errors="replace")`: the bytes up
to the first NUL, ASCII bytes kept, others replaced by U+FFFD. -/
def decodeAsciiReplace (bs : List ℕ) : String :=
  String.mk ((bs.takeWhile (· ≠ 0)).map
    (fun b => if b < 128 then Char.ofNat b else Char.ofNat 0xFFFD))

/-! ## Protocol constants (src/protocol/constants.py) -/

def MAGIC : List ℕ := [0x0A, 0xF0]
def CMD_PACKET_SIZE : ℕ := 44
def CMD_TIMESTAMP_OFFSET : ℕ := 32
def CMD_CONSTANT_VALUE : ℕ := 0x19C
def CMD_CRC_OFFSET : ℕ := 40
def BC_PACKET_SIZE : ℕ := 111
def BC_CRC_OFFSET : ℕ := 107
def PACE_FASTEST_SEC : ℤ := 74
def PACE_SLOWEST_SEC : ℤ := 243

/-! ## Packet decoder (src/protocol/decoder.py) -/

/-- Parsed broadcast packet from the pool (dataclass `PoolStatus`). -/
structure PoolStatus where
  state_id : ℕ
  status_flags : ℕ
  is_running : Bool
  current_speed : ℕ
  target_speed : ℕ
  speed_param : ℕ
  set_timer : ℕ
  remaining_timer : ℕ
  segment_distance : ℚ
  total_distance : ℚ
  timestamp : ℕ
  device_name : String
  raw : Option (List ℕ) := none
deriving DecidableEq

/-- `PoolStatus._derive_state`, which reads only `status_flags` and
`is_running`: derive a human-readable pool state string. -/
def derive_state (status_flags : ℕ) (is_running : Bool) : String :=
  let lower := status_flags &&& 0x0F
  let transitioning : Bool := status_flags &&& 0x40 != 0
  if is_running && !transitioning then "running"
  else if is_running && transitioning then "running"
  else if !is_running && !transitioning && (lower == 0x08) then "idle"
  else if !is_running && transitioning then
    if lower == 0x08 then "ready"
    else if lower == 0x09 || lower == 0x0B then "starting"
    else if lower == 0x0A then "stopping"
    else if lower == 0x0F then "changing"
    else "idle"
  else "idle"

/-- `parse_broadcast`: parse a 111-byte broadcast packet; `none` if invalid. -/
def parse_broadcast (data : List ℕ) : Option PoolStatus :=
  if data.length ≠ BC_PACKET_SIZE then none
  else if data.take 2 ≠ MAGIC then none
  else
    let expected_crc := readLE32 data BC_CRC_OFFSET
    let actual_crc := crc32 (data.take BC_CRC_OFFSET)
    if actual_crc ≠ expected_crc then none
    else some {
      state_id := data.getD 2 0
      status_flags := data.getD 3 0
      is_running := data.getD 4 0 &&& 0x40 == 0
      current_speed := data.getD 5 0
      target_speed := data.getD 6 0
      speed_param := data.getD 7 0
      set_timer := readLE16 data 9
      remaining_timer := readLE16 data 11
      segment_distance := round2 (f32ToRat (readLE32 data 23))
      total_distance := round2 (f32ToRat (readLE32 data 27))
      timestamp := readLE32 data 71
      device_name := decodeAsciiReplace ((data.drop 79).take 13)
      raw := some data }

/-- `build_command`: build a 44-byte command packet.  The random transaction
id (`random.randint(0, 255)`) and the clock (`int(time.time())`, assumed to
fit 32 bits as `struct.pack "<I"` requires) are explicit parameters; the
`% 256` on `tid` and `cmd_type` records the byte range the call sites supply
(all command constants are single bytes). -/
def build_command (cmd_type : ℕ) (param : ℤ) (tid ts : ℕ) : List ℕ :=
  let body : List ℕ :=
    MAGIC ++ [tid % 256, cmd_type % 256]
      ++ le16 (param % 65536).toNat
      ++ List.replicate 26 0
      ++ le32 (ts % 2 ^ 32)
      ++ le32 CMD_CONSTANT_VALUE
  body ++ le32 (crc32 body)

/-- `speed_param_to_pace`: identity. -/
def speed_param_to_pace (param : ℕ) : ℚ := (param : ℚ)

/-- `pace_to_speed_param`: identity, clamped to 74..243. -/
def pace_to_speed_param (pace_sec : ℚ) : ℤ :=
  max PACE_FASTEST_SEC (min PACE_SLOWEST_SEC (pyRound pace_sec))

/-- The calibration anchor table of `speed_level_to_pace`. -/
def cal : List (ℤ × ℚ) :=
  [(40, 243), (45, 219), (51, 194), (61, 162),
   (67, 148), (77, 129), (91, 109), (180, 74)]

/-- The `for i in range(len(cal) - 1)` scan of `speed_level_to_pace`: first
adjacent anchor pair bracketing the level wins. -/
def interpScan (level : ℤ) : List (ℤ × ℚ) → Option ℚ
  | (l1, p1) :: (l2, p2) :: rest =>
      if l1 ≤ level ∧ level ≤ l2 then
        let t : ℚ := if l2 ≠ l1 then ((level : ℚ) - l1) / ((l2 : ℚ) - l1) else 0
        some (round1 (p1 + t * (p2 - p1)))
      else interpScan level ((l2, p2) :: rest)
  | _ => none

/-- `speed_level_to_pace`: estimate pace from the internal motor speed level. -/
def speed_level_to_pace (level : ℤ) : Option ℚ :=
  if level ≤ 1 then none
  else
    let c0 := cal.getD 0 (0, 0)
    let c1 := cal.getD 1 (0, 0)
    let cLast := cal.getD 7 (0, 0)
    let cPrev := cal.getD 6 (0, 0)
    if level ≤ c0.1 then
      some (round1 (c0.2 + ((c1.2 - c0.2) / ((c1.1 : ℚ) - c0.1)) * ((level : ℚ) - c0.1)))
    else if cLast.1 ≤ level then
      some (round1 (cLast.2 + ((cLast.2 - cPrev.2) / ((cLast.1 : ℚ) - cPrev.1)) * ((level : ℚ) - cLast.1)))
    else interpScan level cal

/-! ## Reliable command dispatcher (src/server.py) -/

/-- `send_pool_command`: the packet is built once (one transaction id draw
`tid`, one clock reading `ts`) and that same packet is transmitted `rep`
times.  Returns the sequence of packets put on the wire. -/
def send_pool_command (cmd_type : ℕ) (param : ℤ) (rep : ℕ) (tid ts : ℕ) :
    List (List ℕ) :=
  let cmd := build_command cmd_type param tid ts
  List.replicate rep cmd

/-- Modelled from the spec: the spec's `send_raw` (§4.5/§9) claims each
repetition of the burst is a freshly built packet with its own random
transaction id and timestamp; `draws` lists the (transaction id, timestamp)
pair each attempt would draw.  Used only for comparison with the code's
`send_pool_command`. -/
def send_raw_spec (cmd_type : ℕ) (param : ℤ) (draws : List (ℕ × ℕ)) :
    List (List ℕ) :=
  draws.map (fun d => build_command cmd_type param d.1 d.2)

/-- `_send_verified`, abstracted over the effects: `deadline` is
`time.time() + timeout`; `obs` lists, per loop iteration, the clock value at
the `while` test together with the `latest_status` value read after the 0.6 s
sleep.  Returns the sequence of burst sizes passed to `send_pool_command`:
a burst of 2 per loop iteration, and the final burst of 3 on the timeout
path.  An exhausted observation list stands for a clock past the deadline. -/
def sendVerifiedBursts {α : Type} (check : α → Bool) (deadline : ℚ) :
    List (ℚ × Option α) → List ℕ
  | [] => [3]
  | (t, s) :: rest =>
      if t < deadline then
        2 :: (match s with
          | some st => if check st then [] else sendVerifiedBursts check deadline rest
          | none => sendVerifiedBursts check deadline rest)
      else [3]

/-- Whether the `_send_verified` loop on `obs` ends by reaching the deadline
(true) or by observing a status satisfying the predicate (false). -/
def sendVerifiedTimesOut {α : Type} (check : α → Bool) (deadline : ℚ) :
    List (ℚ × Option α) → Bool
  | [] => true
  | (t, s) :: rest =>
      if t < deadline then
        match s with
        | some st => if check st then false else sendVerifiedTimesOut check deadline rest
        | none => sendVerifiedTimesOut check deadline rest
      else true

/-! ## Workout segmentation engine (src/server.py, class WorkoutRecorder) -/

/-- One appended interval record (the dict built in `_finish_interval`;
`start_time` kept as epoch seconds, ISO formatting being presentation). -/
structure SwimInterval where
  start_time : ℚ
  duration : ℤ
  distance : ℚ
  speed_param : ℕ
  avg_pace : ℚ
deriving DecidableEq

/-- The workout dict built in `_on_start` (`start_time` as epoch seconds). -/
structure Workout where
  id : String
  user_id : String
  start_time : ℚ
  total_distance : ℚ
  total_time : ℤ
  intervals : List SwimInterval
deriving DecidableEq

/-- The mutable fields of `WorkoutRecorder`. -/
structure WorkoutRecorder where
  active_user_id : Option String
  recording : Bool
  workout : Option Workout
  current_interval_start : Option ℚ
  current_interval_dist_start : ℚ
  last_speed_param : ℕ
  was_running : Bool
  stopped_at : Option ℚ
deriving DecidableEq

namespace WorkoutRecorder

/-- `WorkoutRecorder.__init__`. -/
def init : WorkoutRecorder :=
  { active_user_id := none, recording := false, workout := none,
    current_interval_start := none, current_interval_dist_start := 0,
    last_speed_param := 0, was_running := false, stopped_at := none }

/-- `_start_interval`. -/
def startInterval (st : WorkoutRecorder) (status : PoolStatus) (now : ℚ) :
    WorkoutRecorder :=
  { st with current_interval_start := some now,
            current_interval_dist_start := status.total_distance,
            last_speed_param := status.speed_param }

/-- `_finish_interval`. -/
def finishInterval (st : WorkoutRecorder) (status : PoolStatus) (now : ℚ) :
    WorkoutRecorder :=
  match st.current_interval_start, st.workout with
  | some start, some w =>
      let duration : ℤ := pyInt (now - start)
      let distance : ℚ := max 0 (status.total_distance - st.current_interval_dist_start)
      if 0 < duration then
        let interval : SwimInterval :=
          { start_time := start
            duration := duration
            distance := round1 distance
            speed_param := st.last_speed_param
            avg_pace := if 0 < distance then round1 (100 / (distance / duration)) else 0 }
        { st with
            workout := some { w with
              intervals := w.intervals ++ [interval]
              total_distance := round1 (w.total_distance + distance)
              total_time := w.total_time + duration }
            current_interval_start := none }
      else { st with current_interval_start := none }
  | _, _ => st

/-- `_on_start` (`freshId` stands for the `uuid.uuid4()` draw). -/
def onStart (st : WorkoutRecorder) (status : PoolStatus) (now : ℚ)
    (freshId : String) : WorkoutRecorder :=
  match st.active_user_id with
  | none => st
  | some uid =>
      let st1 :=
        if !st.recording then
          { st with
              workout := some { id := freshId, user_id := uid, start_time := now,
                                total_distance := 0, total_time := 0, intervals := [] }
              recording := true }
        else st
      startInterval st1 status now

/-- `_on_stop`. -/
def onStop (st : WorkoutRecorder) (status : PoolStatus) (now : ℚ) :
    WorkoutRecorder :=
  if st.recording then finishInterval st status now else st

/-- `update`: called on each broadcast packet. -/
def update (st : WorkoutRecorder) (status : PoolStatus) (now : ℚ)
    (freshId : String) : WorkoutRecorder :=
  let st1 :=
    if status.is_running && !st.was_running then
      { (onStart st status now freshId) with stopped_at := none }
    else if !status.is_running && st.was_running then
      { (onStop st status now) with stopped_at := some now }
    else if status.is_running && st.recording then
      let st' := { st with stopped_at := none }
      if status.speed_param ≠ st'.last_speed_param ∧ st'.last_speed_param ≠ 0 then
        startInterval (finishInterval st' status now) status now
      else st'
    else st
  { st1 with was_running := status.is_running }

/-- `finalize`: finish recording; returns the workout (or `none`) and the
state left behind. -/
def finalize (st : WorkoutRecorder) : Option Workout × WorkoutRecorder :=
  match st.workout with
  | none => (none, st)
  | some w =>
      if !st.recording then (none, st)
      else if w.intervals = [] then
        (none, { st with recording := false, workout := none })
      else
        (some w, { st with recording := false, workout := none,
                           current_interval_start := none })

/-- `check_auto_finalize`: auto-finalize if the pool has been stopped for
more than 5 seconds while recording. -/
def check_auto_finalize (st : WorkoutRecorder) (now : ℚ) :
    Option Workout × WorkoutRecorder :=
  if !st.recording then (none, st)
  else
    match st.stopped_at with
    | none => (none, st)
    | some t => if 5 < now - t then finalize st else (none, st)

end WorkoutRecorder

/-! ## Concrete test vectors used by witnesses and counterexamples -/

/-- A telemetry sample: only `is_running`, `speed_param` and `total_distance`
drive the workout recorder. -/
def mkStatus (run : Bool) (sp : ℕ) (dist : ℚ) : PoolStatus :=
  { state_id := 1, status_flags := if run then 0x0F else 0x4A,
    is_running := run, current_speed := 50, target_speed := 50,
    speed_param := sp, set_timer := 1200, remaining_timer := 600,
    segment_distance := 0, total_distance := dist, timestamp := 1700000000,
    device_name := "POOL", raw := none }

/-- A freshly opened workout with no appended intervals. -/
def c3w0 : Workout :=
  { id := "w", user_id := "u", start_time := 0,
    total_distance := 0, total_time := 0, intervals := [] }

/-- A recorder mid-recording: interval open since t = 0 at speed 130. -/
def c3st0 : WorkoutRecorder :=
  { active_user_id := some "u", recording := true, workout := some c3w0,
    current_interval_start := some 0, current_interval_dist_start := 0,
    last_speed_param := 130, was_running := true, stopped_at := none }

/-- State after the transient stop at t = 60 (50 m swum). -/
def c3st1 : WorkoutRecorder := WorkoutRecorder.update c3st0 (mkStatus false 130 50) 60 "x1"

/-- State after running resumes at t = 62, within the 5 s threshold. -/
def c3st2 : WorkoutRecorder := WorkoutRecorder.update c3st1 (mkStatus true 130 50) 62 "x2"

/-- A recorder holding a workout with zero appended intervals but an interval
open since t = 100. -/
def c4st : WorkoutRecorder :=
  { active_user_id := some "u", recording := true, workout := some c3w0,
    current_interval_start := some 100, current_interval_dist_start := 0,
    last_speed_param := 130, was_running := true, stopped_at := none }

/-- One appended interval record. -/
def c4i : SwimInterval :=
  { start_time := 0, duration := 60, distance := 50, speed_param := 130,
    avg_pace := 120 }

/-- A workout with one appended interval. -/
def c4w2 : Workout :=
  { id := "w2", user_id := "u", start_time := 0,
    total_distance := 50, total_time := 60, intervals := [c4i] }

/-- A recorder with one appended interval and an interval still open. -/
def c4st2 : WorkoutRecorder :=
  { active_user_id := some "u", recording := true, workout := some c4w2,
    current_interval_start := some 100, current_interval_dist_start := 50,
    last_speed_param := 130, was_running := true, stopped_at := none }

/-- A recorder whose open interval was started with speed parameter 0. -/
def c9st : WorkoutRecorder :=
  { active_user_id := some "u", recording := true, workout := some c3w0,
    current_interval_start := some 0, current_interval_dist_start := 0,
    last_speed_param := 0, was_running := true, stopped_at := none }

/-- A valid 111-byte broadcast packet (magic, fields, and a correct CRC-32
over its first 107 bytes). -/
def c5pkt : List ℕ :=
  [10, 240, 1, 15, 33, 50, 50, 130, 0, 176, 4, 88, 2, 0, 0, 0, 0, 0, 0, 0,
   0, 0, 0, 0, 0, 200, 65, 0, 0, 72, 66, 0, 0, 0, 0, 0, 0, 0, 0, 0,
   0, 0, 0, 0, 0, 0, 0, 0, 0, 0, 0, 0, 0, 0, 0, 0, 0, 0, 0, 0,
   0, 0, 0, 0, 0, 0, 0, 0, 0, 0, 0, 0, 241, 83, 101, 0, 0, 0, 0, 80,
   79, 79, 76, 0, 0, 0, 0, 0, 0, 0, 0, 0, 0, 0, 0, 0, 0, 0, 0, 0,
   0, 0, 0, 0, 0, 0, 0, 169, 53, 128, 34]

/-- The spec's classifier mapping, stated directly from the claim's listed
rules (one bullet per branch), for comparison with the code's
`derive_state`. -/
def classify_spec (flags : ℕ) (running : Bool) : String :=
  let lower := flags &&& 0x0F
  let transitioning : Bool := flags &&& 0x40 != 0
  if running then "running"
  else if !transitioning && lower == 0x08 then "idle"
  else if transitioning && lower == 0x08 then "ready"
  else if transitioning && (lower == 0x09 || lower == 0x0B) then "starting"
  else if transitioning && lower == 0x0A then "stopping"
  else if transitioning && lower == 0x0F then "changing"
  else "idle"

/-! ## Theorems -/

/-- `pyRound` is the identity on integers. -/
theorem pyRound_intCast (n : ℤ) : pyRound (n : ℚ) = n := by
  norm_num [pyRound]

/-- C6: `pace_to_speed_param` is idempotent, is the identity on every integer
in [74, 243], and clamps every input into [74, 243] (never rejecting it). -/
theorem c6_pace_param_idempotent_identity_clamp (q : ℚ) (x : ℤ)
    (h74 : 74 ≤ x) (h243 : x ≤ 243) :
    pace_to_speed_param ((pace_to_speed_param q : ℤ) : ℚ) = pace_to_speed_param q
    ∧ pace_to_speed_param (x : ℚ) = x
    ∧ 74 ≤ pace_to_speed_param q ∧ pace_to_speed_param q ≤ 243 := by
  have hval : ∀ y : ℤ, 74 ≤ y → y ≤ 243 → pace_to_speed_param (y : ℚ) = y := by
    intro y hy1 hy2
    unfold pace_to_speed_param PACE_FASTEST_SEC PACE_SLOWEST_SEC
    rw [pyRound_intCast]
    omega
  have hlo : 74 ≤ pace_to_speed_param q := by
    unfold pace_to_speed_param PACE_FASTEST_SEC PACE_SLOWEST_SEC
    omega
  have hhi : pace_to_speed_param q ≤ 243 := by
    unfold pace_to_speed_param PACE_FASTEST_SEC PACE_SLOWEST_SEC
    omega
  exact ⟨hval _ hlo hhi, hval x h74 h243, hlo, hhi⟩

/-- C6 witness: the clamp evaluated at pace 500 (out of range) and at the
in-range integer 100. -/
theorem c6_witness :
    pace_to_speed_param ((pace_to_speed_param 500 : ℤ) : ℚ) = pace_to_speed_param 500
    ∧ pace_to_speed_param ((100 : ℤ) : ℚ) = 100
    ∧ 74 ≤ pace_to_speed_param 500 ∧ pace_to_speed_param 500 ≤ 243 :=
  c6_pace_param_idempotent_identity_clamp 500 100 (by norm_num) (by norm_num)

/-- C10: for every integer `param` (negative or above 65535 included),
`build_command` still yields a well-formed 44-byte packet starting with the
magic bytes, whose parameter field at offsets 4-5 is the little-endian
encoding of `param mod 2^16`: out-of-range parameters wrap silently. -/
theorem c10_build_command_masks_param (cmd_type : ℕ) (param : ℤ) (tid ts : ℕ) :
    (build_command cmd_type param tid ts).length = 44
    ∧ (build_command cmd_type param tid ts).take 2 = MAGIC
    ∧ (readLE16 (build_command cmd_type param tid ts) 4 : ℤ) = param % 65536 := by
  have h1 : 0 ≤ param % 65536 := Int.emod_nonneg _ (by norm_num)
  have h2 : param % 65536 < 65536 := Int.emod_lt_of_pos _ (by norm_num)
  refine ⟨?_, ?_, ?_⟩
  · simp [build_command, le16, le32, MAGIC]
  · simp [build_command, MAGIC]
  · simp only [build_command, readLE16, le16, MAGIC, List.cons_append,
      List.nil_append, List.getD_cons_succ, List.getD_cons_zero]
    omega

/-- C2 counterexample: with `repeat = 2` and the independent draws 5 then 9
available, the code's burst sends the identical packet twice (one build, one
transaction id), whereas freshly built packets per attempt (the spec's
`send_raw`) would differ at the transaction-id byte.  The claim that each
attempt carries its own independently drawn transaction id is false. -/
theorem c2_counterexample :
    (send_pool_command 0x24 100 2 5 1000).getD 0 [] =
      (send_pool_command 0x24 100 2 5 1000).getD 1 []
    ∧ (send_raw_spec 0x24 100 [(5, 1000), (9, 1000)]).getD 0 [] ≠
      (send_raw_spec 0x24 100 [(5, 1000), (9, 1000)]).getD 1 [] := by
  set_option maxRecDepth 8000 in decide

/-- C2 (amended): `send_pool_command` builds the packet once per call; every
one of the `rep` transmissions is that same packet, so all attempts of one
burst share a single transaction id (byte 2) and timestamp. -/
theorem c2_one_build_per_burst (cmd_type : ℕ) (param : ℤ) (rep : ℕ)
    (tid ts : ℕ) (p : List ℕ)
    (hp : p ∈ send_pool_command cmd_type param rep tid ts) :
    (send_pool_command cmd_type param rep tid ts).length = rep
    ∧ p = build_command cmd_type param tid ts
    ∧ p.getD 2 0 = tid % 256 := by
  have hmem := List.eq_of_mem_replicate hp
  refine ⟨by simp [send_pool_command], hmem, ?_⟩
  rw [hmem]
  simp [build_command, MAGIC]

/-- C2 witness: the burst of 2 at concrete arguments. -/
theorem c2_witness :
    (send_pool_command 0x24 100 2 5 1000).length = 2
    ∧ build_command 0x24 100 5 1000 = build_command 0x24 100 5 1000
    ∧ (build_command 0x24 100 5 1000).getD 2 0 = 5 % 256 :=
  c2_one_build_per_burst 0x24 100 2 5 1000 (build_command 0x24 100 5 1000)
    (by simp [send_pool_command])

/-- C1 counterexample: a run of `_send_verified` whose predicate is satisfied
at the first check (deadline 10, first loop iteration at t = 0) performs the
one burst of 2 and returns: no final burst of 3 is sent, so the final burst
is not performed "regardless of confirmation". -/
theorem c1_counterexample :
    sendVerifiedBursts (fun _ : Unit => true) 10 [(0, some ())] = [2]
    ∧ (sendVerifiedBursts (fun _ : Unit => true) 10 [(0, some ())]).getLast? ≠
      some 3 := by
  decide

/-- `_send_verified` always performs at least one burst. -/
theorem sendVerifiedBursts_ne_nil {α : Type} (check : α → Bool) (deadline : ℚ)
    (obs : List (ℚ × Option α)) :
    sendVerifiedBursts check deadline obs ≠ [] := by
  cases obs with
  | nil => simp [sendVerifiedBursts]
  | cons hd tl =>
      obtain ⟨t, s⟩ := hd
      simp only [sendVerifiedBursts]
      split <;> simp

/-- C1 (amended): the final larger burst of 3 is performed exactly when the
retry loop ends by reaching the timeout; when the loop ends because the
predicate was satisfied, the function returns right away and the last burst
sent is the confirming burst of 2.  Every burst is of size 2 or 3. -/
theorem c1_final_burst_iff_timeout {α : Type} (check : α → Bool) (deadline : ℚ)
    (obs : List (ℚ × Option α)) :
    ((sendVerifiedBursts check deadline obs).getLast? = some 3 ↔
      sendVerifiedTimesOut check deadline obs = true)
    ∧ (sendVerifiedTimesOut check deadline obs = false →
      (sendVerifiedBursts check deadline obs).getLast? = some 2)
    ∧ ∀ b ∈ sendVerifiedBursts check deadline obs, b = 2 ∨ b = 3 := by
  induction obs with
  | nil => simp [sendVerifiedBursts, sendVerifiedTimesOut]
  | cons hd tl ih =>
      obtain ⟨t, s⟩ := hd
      obtain ⟨ih1, ih2, ih3⟩ := ih
      by_cases ht : t < deadline
      · have hcont : sendVerifiedBursts check deadline ((t, s) :: tl) =
              2 :: sendVerifiedBursts check deadline tl →
            sendVerifiedTimesOut check deadline ((t, s) :: tl) =
              sendVerifiedTimesOut check deadline tl →
            ((sendVerifiedBursts check deadline ((t, s) :: tl)).getLast? = some 3 ↔
              sendVerifiedTimesOut check deadline ((t, s) :: tl) = true)
            ∧ (sendVerifiedTimesOut check deadline ((t, s) :: tl) = false →
              (sendVerifiedBursts check deadline ((t, s) :: tl)).getLast? = some 2)
            ∧ ∀ b ∈ sendVerifiedBursts check deadline ((t, s) :: tl),
                b = 2 ∨ b = 3 := by
          intro hB hT
          obtain ⟨b, l, hb⟩ := List.exists_cons_of_ne_nil
            (sendVerifiedBursts_ne_nil check deadline tl)
          rw [hB, hT, hb]
          rw [hb] at ih1 ih2 ih3
          refine ⟨by simpa [List.getLast?_cons_cons] using ih1,
            fun h => by simpa [List.getLast?_cons_cons] using ih2 h, ?_⟩
          intro x hx
          rcases List.mem_cons.mp hx with rfl | hx2
          · exact Or.inl rfl
          · exact ih3 x hx2
        cases s with
        | none =>
            exact hcont (by simp [sendVerifiedBursts, ht])
              (by simp [sendVerifiedTimesOut, ht])
        | some st =>
            by_cases hc : check st
            · simp [sendVerifiedBursts, sendVerifiedTimesOut, ht, hc]
            · have hc' : check st = false := by simpa using hc
              exact hcont (by simp [sendVerifiedBursts, ht, hc'])
                (by simp [sendVerifiedTimesOut, ht, hc'])
      · simp [sendVerifiedBursts, sendVerifiedTimesOut, if_neg ht]

/-- C1 witness (amended): a run that reaches the deadline with no confirming
status ends with the final burst of 3. -/
theorem c1_witness :
    (sendVerifiedBursts (fun _ : Unit => false) 1 [((0 : ℚ), none)]).getLast? =
      some 3 :=
  (c1_final_burst_iff_timeout (fun _ : Unit => false) 1 [((0 : ℚ), none)]).1.mpr
    (by decide)

/-- C7: the state classifier is total — for every flag byte and running flag
it returns exactly the state the spec's listed rules give, always one of the
six defined states, and every combination the rules do not recognize falls
back to "idle"; no error is ever raised (the function is total by
construction). -/
theorem c7_classifier_total_matches_spec (flags : ℕ) (running : Bool) :
    derive_state flags running = classify_spec flags running
    ∧ derive_state flags running ∈
        ["running", "idle", "ready", "starting", "stopping", "changing"]
    ∧ (running = false → flags &&& 0x40 ≠ 0 →
        flags &&& 0x0F ∉ ([0x08, 0x09, 0x0A, 0x0B, 0x0F] : List ℕ) →
        derive_state flags running = "idle") := by
  obtain ⟨l, hl, hleq⟩ : ∃ l, l ≤ 15 ∧ flags &&& 0x0F = l :=
    ⟨flags &&& 0x0F, Nat.and_le_right, rfl⟩
  obtain ⟨tr, htr⟩ : ∃ tr : Bool, ((flags &&& 0x40) != 0) = tr := ⟨_, rfl⟩
  have h40 : (flags &&& 0x40 ≠ 0) ↔ tr = true := by
    rw [← htr]; simp
  cases running <;> cases tr <;>
    simp only [derive_state, classify_spec, hleq, htr, h40] <;>
    interval_cases l <;> decide

/-- C7 witness: the classifier at flags 0x48 with the running bit stopped. -/
theorem c7_witness :
    derive_state 0x48 false = classify_spec 0x48 false :=
  (c7_classifier_total_matches_spec 0x48 false).1

/-- C9: while recording and running (no start/stop transition), if the open
interval was recorded with speed parameter 0, a telemetry sample with any
other speed parameter does not split the interval: the state is unchanged
except that the stopped-at marker is cleared, and the zero speed parameter is
retained. -/
theorem c9_zero_speed_param_never_splits (st : WorkoutRecorder)
    (status : PoolStatus) (now : ℚ) (freshId : String)
    (hrec : st.recording = true) (hwas : st.was_running = true)
    (hrun : status.is_running = true) (hzero : st.last_speed_param = 0) :
    WorkoutRecorder.update st status now freshId =
      { st with stopped_at := none, was_running := true }
    ∧ (WorkoutRecorder.update st status now freshId).last_speed_param = 0
    ∧ (WorkoutRecorder.update st status now freshId).current_interval_start =
        st.current_interval_start
    ∧ (WorkoutRecorder.update st status now freshId).workout = st.workout := by
  have h : WorkoutRecorder.update st status now freshId =
      { st with stopped_at := none, was_running := true } := by
    simp [WorkoutRecorder.update, hrec, hwas, hrun, hzero]
  exact ⟨h, by simp [h, hzero], by rw [h], by rw [h]⟩

/-- C9 witness: a sample changing the speed parameter to 130 over an interval
opened at speed parameter 0 leaves the recorder's interval untouched. -/
theorem c9_witness :
    WorkoutRecorder.update c9st (mkStatus true 130 50) 10 "x" =
      { c9st with stopped_at := none, was_running := true } :=
  (c9_zero_speed_param_never_splits c9st (mkStatus true 130 50) 10 "x"
    rfl rfl rfl rfl).1

/-- C3 counterexample: a transient 2-second pause (stop at t = 60, resume at
t = 62).  The recording is indeed continuous (same workout "w", stopped-at
cleared, still recording) — but the interval that was open since t = 0 IS
split by the stop alone: it is closed and appended at the stop (the workout
now holds 1 interval, where it held 0) and a fresh interval is opened at the
resume (current_interval_start = 62), contradicting "the interval spanning
the pause is NOT split by the stop alone". -/
theorem c3_counterexample :
    c3st1.workout.map (fun w => w.intervals.length) = some 1
    ∧ c3st1.current_interval_start = none
    ∧ c3st2.current_interval_start = some 62
    ∧ c3st2.workout.map (fun w => w.intervals.length) = some 1
    ∧ c3st2.workout.map (fun w => w.id) = some "w"
    ∧ c3st2.stopped_at = none
    ∧ c3st2.recording = true := by
  have hd : (0 : ℤ) < pyInt (60 : ℚ) := by norm_num [pyInt]
  have h1 : c3st1.workout.map (fun w => w.intervals.length) = some 1
      ∧ c3st1.current_interval_start = none := by
    constructor <;>
      simp [c3st1, c3st0, c3w0, mkStatus, WorkoutRecorder.update,
        WorkoutRecorder.onStop, WorkoutRecorder.finishInterval, hd]
  refine ⟨h1.1, h1.2, ?_, ?_, ?_, ?_, ?_⟩ <;>
    simp [c3st2, c3st1, c3st0, c3w0, mkStatus, WorkoutRecorder.update,
      WorkoutRecorder.onStop, WorkoutRecorder.onStart,
      WorkoutRecorder.startInterval, WorkoutRecorder.finishInterval, hd]

/-- C3 (amended): over a stop at `t1` and a resume at `t2`, the engine keeps
one continuous recording — the same Workout (no new one is created), the
stopped-at marker is cleared on resume, and auto-finalize does not fire while
the stop has lasted at most 5 seconds — but the stop alone does split the
recording into intervals: the interval open at the stop is closed and
appended there, and a fresh interval is opened at the resume. -/
theorem c3_transient_pause_splits_interval (st : WorkoutRecorder) (w : Workout)
    (s1 s2 : PoolStatus) (t0 t1 t2 : ℚ) (fid1 fid2 uid : String)
    (hrec : st.recording = true) (hwas : st.was_running = true)
    (huser : st.active_user_id = some uid) (hw : st.workout = some w)
    (hopen : st.current_interval_start = some t0)
    (hdur : 0 < pyInt (t1 - t0))
    (hs1 : s1.is_running = false) (hs2 : s2.is_running = true) :
    (WorkoutRecorder.update st s1 t1 fid1).recording = true
    ∧ (WorkoutRecorder.update st s1 t1 fid1).stopped_at = some t1
    ∧ (∀ t : ℚ, t - t1 ≤ 5 →
        WorkoutRecorder.check_auto_finalize
          (WorkoutRecorder.update st s1 t1 fid1) t =
          (none, WorkoutRecorder.update st s1 t1 fid1))
    ∧ (WorkoutRecorder.update st s1 t1 fid1).workout.map
        (fun x => x.intervals.length) = some (w.intervals.length + 1)
    ∧ (WorkoutRecorder.update st s1 t1 fid1).current_interval_start = none
    ∧ (WorkoutRecorder.update (WorkoutRecorder.update st s1 t1 fid1) s2 t2
        fid2).recording = true
    ∧ (WorkoutRecorder.update (WorkoutRecorder.update st s1 t1 fid1) s2 t2
        fid2).workout = (WorkoutRecorder.update st s1 t1 fid1).workout
    ∧ (WorkoutRecorder.update (WorkoutRecorder.update st s1 t1 fid1) s2 t2
        fid2).workout.map (fun x => x.id) = some w.id
    ∧ (WorkoutRecorder.update (WorkoutRecorder.update st s1 t1 fid1) s2 t2
        fid2).stopped_at = none
    ∧ (WorkoutRecorder.update (WorkoutRecorder.update st s1 t1 fid1) s2 t2
        fid2).current_interval_start = some t2 := by
  refine ⟨?_, ?_, ?_, ?_, ?_, ?_, ?_, ?_, ?_, ?_⟩
  · simp [WorkoutRecorder.update, WorkoutRecorder.onStop,
      WorkoutRecorder.finishInterval, hrec, hwas, hs1, hw, hopen, hdur]
  · simp [WorkoutRecorder.update, WorkoutRecorder.onStop,
      WorkoutRecorder.finishInterval, hrec, hwas, hs1, hw, hopen, hdur]
  · intro t ht
    have hlt : ¬((5 : ℚ) < t - t1) := by linarith
    simp [WorkoutRecorder.update, WorkoutRecorder.onStop,
      WorkoutRecorder.finishInterval, WorkoutRecorder.check_auto_finalize,
      hrec, hwas, hs1, hw, hopen, hdur, hlt]
  · simp [WorkoutRecorder.update, WorkoutRecorder.onStop,
      WorkoutRecorder.finishInterval, hrec, hwas, hs1, hw, hopen, hdur]
  · simp [WorkoutRecorder.update, WorkoutRecorder.onStop,
      WorkoutRecorder.finishInterval, hrec, hwas, hs1, hw, hopen, hdur]
  · simp [WorkoutRecorder.update, WorkoutRecorder.onStop, WorkoutRecorder.onStart,
      WorkoutRecorder.startInterval, WorkoutRecorder.finishInterval,
      hrec, hwas, hs1, hs2, hw, hopen, hdur, huser]
  · simp [WorkoutRecorder.update, WorkoutRecorder.onStop, WorkoutRecorder.onStart,
      WorkoutRecorder.startInterval, WorkoutRecorder.finishInterval,
      hrec, hwas, hs1, hs2, hw, hopen, hdur, huser]
  · simp [WorkoutRecorder.update, WorkoutRecorder.onStop, WorkoutRecorder.onStart,
      WorkoutRecorder.startInterval, WorkoutRecorder.finishInterval,
      hrec, hwas, hs1, hs2, hw, hopen, hdur, huser]
  · simp [WorkoutRecorder.update, WorkoutRecorder.onStop, WorkoutRecorder.onStart,
      WorkoutRecorder.startInterval, WorkoutRecorder.finishInterval,
      hrec, hwas, hs1, hs2, hw, hopen, hdur, huser]
  · simp [WorkoutRecorder.update, WorkoutRecorder.onStop, WorkoutRecorder.onStart,
      WorkoutRecorder.startInterval, WorkoutRecorder.finishInterval,
      hrec, hwas, hs1, hs2, hw, hopen, hdur, huser]

/-- C3 witness (amended): the concrete pause trace (stop at 60, resume at
62) through the amended theorem. -/
theorem c3_witness :
    (WorkoutRecorder.update c3st0 (mkStatus false 130 50) 60 "x1").workout.map
      (fun x => x.intervals.length) = some (c3w0.intervals.length + 1) :=
  (c3_transient_pause_splits_interval c3st0 c3w0 (mkStatus false 130 50)
    (mkStatus true 130 50) 0 60 62 "x1" "x2" "u" rfl rfl rfl rfl rfl
    (by norm_num [pyInt]) rfl rfl).2.2.2.1

/-- C4 counterexample: a recorder mid-recording whose workout has zero
appended intervals but whose interval has been open since t = 100.  The
claim says finalize first closes the open interval (appending it, its
duration being positive at any later finalize time) and then, the workout
being nonempty, returns it.  The code instead ignores the open interval
(`finalize` never reads `current_interval_start` before dropping the
workout): it discards the workout entirely. -/
theorem c4_counterexample :
    c4st.current_interval_start = some 100
    ∧ (WorkoutRecorder.finalize c4st).1 = none
    ∧ (WorkoutRecorder.finalize c4st).2.workout = none
    ∧ (WorkoutRecorder.finalize c4st).2.current_interval_start = some 100 := by
  refine ⟨rfl, ?_, ?_, ?_⟩ <;>
    simp [c4st, c3w0, WorkoutRecorder.finalize]

/-- C4 (amended): on finalize (explicit, or via the auto-finalize check),
any still-open interval is discarded, not closed: the workout is returned
exactly as accumulated.  The workout is discarded (`none`) when it has zero
appended intervals (in that branch the open-interval marker is not even
cleared), and otherwise it is returned unchanged with the recording state
reset (recording off, workout slot emptied, open-interval marker cleared).
The auto-finalize check calls this same finalize exactly when the recorder
is recording and has been stopped for more than 5 seconds. -/
theorem c4_finalize_drops_open_interval (st : WorkoutRecorder) (w : Workout)
    (now : ℚ) (hrec : st.recording = true) (hw : st.workout = some w) :
    (w.intervals = [] →
      WorkoutRecorder.finalize st =
        (none, { st with recording := false, workout := none }))
    ∧ (w.intervals ≠ [] →
      WorkoutRecorder.finalize st =
        (some w,
          { st with recording := false, workout := none,
                    current_interval_start := none }))
    ∧ (∀ w', (WorkoutRecorder.finalize st).1 = some w' → w' = w)
    ∧ (WorkoutRecorder.check_auto_finalize st now =
        match st.stopped_at with
        | some t =>
            if 5 < now - t then WorkoutRecorder.finalize st else (none, st)
        | none => (none, st)) := by
  refine ⟨?_, ?_, ?_, ?_⟩
  · intro hi
    simp [WorkoutRecorder.finalize, hrec, hw, hi]
  · intro hi
    simp [WorkoutRecorder.finalize, hrec, hw, hi]
  · intro w' hw'
    by_cases hi : w.intervals = []
    · simp [WorkoutRecorder.finalize, hrec, hw, hi] at hw'
    · simp [WorkoutRecorder.finalize, hrec, hw, hi] at hw'
      exact hw'.symm
  · simp only [WorkoutRecorder.check_auto_finalize, hrec]
    cases hst : st.stopped_at <;> simp [hst]

/-- C4 witness (amended): a recorder with one appended interval and a still
open interval; finalize returns the accumulated workout unchanged — the open
interval is dropped. -/
theorem c4_witness :
    WorkoutRecorder.finalize c4st2 =
      (some c4w2,
        { c4st2 with recording := false, workout := none,
                     current_interval_start := none }) :=
  ((c4_finalize_drops_open_interval c4st2 c4w2 0 rfl rfl).2.1) (by
    simp [c4w2])

/-- C5: `parse_broadcast` returns `none` exactly when validation fails —
wrong length (≠ 111), wrong magic (first two bytes ≠ 0x0A 0xF0), or CRC-32
over bytes [0, 107) differing from the little-endian uint32 at offset 107 —
and on success it never returns a partially populated result: every field is
extracted from its fixed offset, with `is_running` true iff bit 6 of the
running-flag byte (offset 4) is clear and both distances rounded to two
decimal places. -/
theorem c5_parse_broadcast_validation (data : List ℕ) :
    (parse_broadcast data = none ↔
      ¬(data.length = 111 ∧ data.take 2 = [0x0A, 0xF0]
        ∧ crc32 (data.take 107) = readLE32 data 107))
    ∧ ∀ ps, parse_broadcast data = some ps →
        ps.state_id = data.getD 2 0
        ∧ ps.status_flags = data.getD 3 0
        ∧ ps.is_running = (data.getD 4 0 &&& 0x40 == 0)
        ∧ ps.current_speed = data.getD 5 0
        ∧ ps.target_speed = data.getD 6 0
        ∧ ps.speed_param = data.getD 7 0
        ∧ ps.set_timer = readLE16 data 9
        ∧ ps.remaining_timer = readLE16 data 11
        ∧ ps.segment_distance = round2 (f32ToRat (readLE32 data 23))
        ∧ ps.total_distance = round2 (f32ToRat (readLE32 data 27))
        ∧ ps.timestamp = readLE32 data 71
        ∧ ps.device_name = decodeAsciiReplace ((data.drop 79).take 13)
        ∧ ps.raw = some data := by
  constructor
  · unfold parse_broadcast BC_PACKET_SIZE MAGIC BC_CRC_OFFSET
    split_ifs with h1 h2 <;> simp_all
  · intro ps hps
    unfold parse_broadcast at hps
    by_cases h1 : data.length ≠ BC_PACKET_SIZE
    · rw [if_pos h1] at hps; cases hps
    rw [if_neg h1] at hps
    by_cases h2 : data.take 2 ≠ MAGIC
    · rw [if_pos h2] at hps; cases hps
    rw [if_neg h2] at hps
    by_cases h3 : crc32 (data.take BC_CRC_OFFSET) ≠ readLE32 data BC_CRC_OFFSET
    · rw [if_pos h3] at hps; cases hps
    rw [if_neg h3] at hps
    injection hps with h
    subst h
    simp

/-- C5 witness: a concrete valid 111-byte packet is accepted (the success
branch of the validation characterization is reachable).  The CRC-32 over
the 107 payload bytes is evaluated in three chunks to keep each reduction
shallow. -/
theorem c5_witness : parse_broadcast c5pkt ≠ none := by
  have hsplit : c5pkt.take 107 =
      ([10, 240, 1, 15, 33, 50, 50, 130, 0, 176, 4, 88, 2, 0, 0, 0, 0, 0,
        0, 0, 0, 0, 0, 0, 0, 200, 65, 0, 0, 72, 66, 0, 0, 0, 0, 0] : List ℕ)
      ++ ([0, 0, 0, 0, 0, 0, 0, 0, 0, 0, 0, 0, 0, 0, 0, 0, 0, 0, 0, 0, 0,
        0, 0, 0, 0, 0, 0, 0, 0, 0, 0, 0, 0, 0, 0, 0] : List ℕ)
      ++ ([241, 83, 101, 0, 0, 0, 0, 80, 79, 79, 76, 0, 0, 0, 0, 0, 0, 0,
        0, 0, 0, 0, 0, 0, 0, 0, 0, 0, 0, 0, 0, 0, 0, 0, 0] : List ℕ) := by
    set_option maxRecDepth 2000 in decide
  have ha : List.foldl crc32Byte 0xFFFFFFFF
      ([10, 240, 1, 15, 33, 50, 50, 130, 0, 176, 4, 88, 2, 0, 0, 0, 0, 0,
        0, 0, 0, 0, 0, 0, 0, 200, 65, 0, 0, 72, 66, 0, 0, 0, 0, 0] : List ℕ) =
      411745950 := by
    set_option maxRecDepth 8000 in decide
  have hb : List.foldl crc32Byte 411745950
      ([0, 0, 0, 0, 0, 0, 0, 0, 0, 0, 0, 0, 0, 0, 0, 0, 0, 0, 0, 0, 0,
        0, 0, 0, 0, 0, 0, 0, 0, 0, 0, 0, 0, 0, 0, 0] : List ℕ) =
      247166197 := by
    set_option maxRecDepth 8000 in decide
  have hc : List.foldl crc32Byte 247166197
      ([241, 83, 101, 0, 0, 0, 0, 80, 79, 79, 76, 0, 0, 0, 0, 0, 0, 0,
        0, 0, 0, 0, 0, 0, 0, 0, 0, 0, 0, 0, 0, 0, 0, 0, 0] : List ℕ) =
      3716139606 := by
    set_option maxRecDepth 8000 in decide
  have hcrc : crc32 (c5pkt.take 107) = 578827689 := by
    rw [crc32, hsplit, List.foldl_append, List.foldl_append, ha, hb, hc]
    decide
  have hread : readLE32 c5pkt 107 = 578827689 := by
    set_option maxRecDepth 2000 in decide
  intro h
  refine (c5_parse_broadcast_validation c5pkt).1.mp h ⟨?_, ?_, ?_⟩
  · set_option maxRecDepth 2000 in decide
  · rfl
  · rw [hcrc, hread]

/-- C8: `speed_level_to_pace` yields `none` exactly for levels ≤ 1; for a
level strictly between two adjacent calibration anchors it returns the
linear interpolation between them; at or below the lowest anchor (40) and at
or above the highest anchor (180) it returns the linear extrapolation along
the slope of the nearest anchor pair (never a clamped value); every returned
pace is rounded to 1 decimal place (all returned values are built by
`round1`). -/
theorem c8_speed_level_to_pace_piecewise (level : ℤ) :
    (speed_level_to_pace level = none ↔ level ≤ 1)
    ∧ (2 ≤ level → level ≤ 40 → speed_level_to_pace level =
        some (round1 (243 + ((219 - 243) / ((45 : ℚ) - 40)) * ((level : ℚ) - 40))))
    ∧ (180 ≤ level → speed_level_to_pace level =
        some (round1 (74 + ((74 - 109) / ((180 : ℚ) - 91)) * ((level : ℚ) - 180))))
    ∧ (40 < level → level < 45 → speed_level_to_pace level =
        some (round1 (243 + (((level : ℚ) - 40) / (45 - 40)) * (219 - 243))))
    ∧ (45 < level → level < 51 → speed_level_to_pace level =
        some (round1 (219 + (((level : ℚ) - 45) / (51 - 45)) * (194 - 219))))
    ∧ (51 < level → level < 61 → speed_level_to_pace level =
        some (round1 (194 + (((level : ℚ) - 51) / (61 - 51)) * (162 - 194))))
    ∧ (61 < level → level < 67 → speed_level_to_pace level =
        some (round1 (162 + (((level : ℚ) - 61) / (67 - 61)) * (148 - 162))))
    ∧ (67 < level → level < 77 → speed_level_to_pace level =
        some (round1 (148 + (((level : ℚ) - 67) / (77 - 67)) * (129 - 148))))
    ∧ (77 < level → level < 91 → speed_level_to_pace level =
        some (round1 (129 + (((level : ℚ) - 77) / (91 - 77)) * (109 - 129))))
    ∧ (91 < level → level < 180 → speed_level_to_pace level =
        some (round1 (109 + (((level : ℚ) - 91) / (180 - 91)) * (74 - 109)))) := by
  refine ⟨⟨?_, ?_⟩, ?_, ?_, ?_, ?_, ?_, ?_, ?_, ?_, ?_⟩
  · -- none → level ≤ 1
    intro h
    by_contra hgt
    push_neg at hgt
    revert h
    unfold speed_level_to_pace
    rw [if_neg (by omega)]
    simp only [cal, List.getD]
    norm_num
    by_cases hA : level ≤ 40
    · rw [if_pos hA]; simp
    rw [if_neg hA]
    by_cases hB : (180 : ℤ) ≤ level
    · rw [if_pos hB]; simp
    rw [if_neg hB]
    by_cases h45 : level ≤ 45
    · unfold interpScan; rw [if_pos (by omega)]; simp
    unfold interpScan; rw [if_neg (by omega)]
    by_cases h51 : level ≤ 51
    · unfold interpScan; rw [if_pos (by omega)]; simp
    unfold interpScan; rw [if_neg (by omega)]
    by_cases h61 : level ≤ 61
    · unfold interpScan; rw [if_pos (by omega)]; simp
    unfold interpScan; rw [if_neg (by omega)]
    by_cases h67 : level ≤ 67
    · unfold interpScan; rw [if_pos (by omega)]; simp
    unfold interpScan; rw [if_neg (by omega)]
    by_cases h77 : level ≤ 77
    · unfold interpScan; rw [if_pos (by omega)]; simp
    unfold interpScan; rw [if_neg (by omega)]
    by_cases h91 : level ≤ 91
    · unfold interpScan; rw [if_pos (by omega)]; simp
    unfold interpScan; rw [if_neg (by omega)]
    unfold interpScan; rw [if_pos (by omega)]; simp
  · -- level ≤ 1 → none
    intro h
    unfold speed_level_to_pace
    rw [if_pos h]
  · -- 2 ≤ level ≤ 40: low extrapolation
    intro hl hh
    unfold speed_level_to_pace
    rw [if_neg (by omega)]
    simp only [cal, List.getD]
    norm_num
    intro h40
    exact absurd hh (by omega)
  · -- level ≥ 180: high extrapolation
    intro hl
    unfold speed_level_to_pace
    rw [if_neg (by omega)]
    simp only [cal, List.getD]
    norm_num
    rw [if_neg (by omega), if_pos hl]
  · -- strictly between 40 and 45
    intro h1 h2
    unfold speed_level_to_pace
    rw [if_neg (by omega)]
    simp only [cal, List.getD]
    norm_num
    rw [if_neg (by omega), if_neg (by omega)]
    unfold interpScan
    rw [if_pos (by omega)]
    norm_num
  · -- strictly between 45 and 51
    intro h1 h2
    unfold speed_level_to_pace
    rw [if_neg (by omega)]
    simp only [cal, List.getD]
    norm_num
    rw [if_neg (by omega), if_neg (by omega)]
    unfold interpScan
    rw [if_neg (by omega)]
    unfold interpScan
    rw [if_pos (by omega)]
    norm_num
  · -- strictly between 51 and 61
    intro h1 h2
    unfold speed_level_to_pace
    rw [if_neg (by omega)]
    simp only [cal, List.getD]
    norm_num
    rw [if_neg (by omega), if_neg (by omega)]
    unfold interpScan
    rw [if_neg (by omega)]
    unfold interpScan
    rw [if_neg (by omega)]
    unfold interpScan
    rw [if_pos (by omega)]
    norm_num
  · -- strictly between 61 and 67
    intro h1 h2
    unfold speed_level_to_pace
    rw [if_neg (by omega)]
    simp only [cal, List.getD]
    norm_num
    rw [if_neg (by omega), if_neg (by omega)]
    unfold interpScan
    rw [if_neg (by omega)]
    unfold interpScan
    rw [if_neg (by omega)]
    unfold interpScan
    rw [if_neg (by omega)]
    unfold interpScan
    rw [if_pos (by omega)]
    norm_num
  · -- strictly between 67 and 77
    intro h1 h2
    unfold speed_level_to_pace
    rw [if_neg (by omega)]
    simp only [cal, List.getD]
    norm_num
    rw [if_neg (by omega), if_neg (by omega)]
    unfold interpScan
    rw [if_neg (by omega)]
    unfold interpScan
    rw [if_neg (by omega)]
    unfold interpScan
    rw [if_neg (by omega)]
    unfold interpScan
    rw [if_neg (by omega)]
    unfold interpScan
    rw [if_pos (by omega)]
    norm_num
  · -- strictly between 77 and 91
    intro h1 h2
    unfold speed_level_to_pace
    rw [if_neg (by omega)]
    simp only [cal, List.getD]
    norm_num
    rw [if_neg (by omega), if_neg (by omega)]
    unfold interpScan
    rw [if_neg (by omega)]
    unfold interpScan
    rw [if_neg (by omega)]
    unfold interpScan
    rw [if_neg (by omega)]
    unfold interpScan
    rw [if_neg (by omega)]
    unfold interpScan
    rw [if_neg (by omega)]
    unfold interpScan
    rw [if_pos (by omega)]
    norm_num
  · -- strictly between 91 and 180
    intro h1 h2
    unfold speed_level_to_pace
    rw [if_neg (by omega)]
    simp only [cal, List.getD]
    norm_num
    rw [if_neg (by omega), if_neg (by omega)]
    unfold interpScan
    rw [if_neg (by omega)]
    unfold interpScan
    rw [if_neg (by omega)]
    unfold interpScan
    rw [if_neg (by omega)]
    unfold interpScan
    rw [if_neg (by omega)]
    unfold interpScan
    rw [if_neg (by omega)]
    unfold interpScan
    rw [if_neg (by omega)]
    unfold interpScan
    rw [if_pos (by omega)]
    norm_num

/-- C8 witness: the piecewise description evaluated at level 50, strictly
between the anchors 45 and 51. -/
theorem c8_witness :
    speed_level_to_pace 50 =
      some (round1 (219 + (((50 : ℚ) - 45) / (51 - 45)) * (194 - 219))) :=
  ((c8_speed_level_to_pace_piecewise 50).2.2.2.2.1) (by norm_num) (by norm_num)
